import Mathlib

/-!
Verification of the reliability and orchestration core of the
aws-ssm-data-fetcher repository: the retry executor and delay
calculation, the circuit breaker, their composition, the tiered cache
manager, and the processing-pipeline orchestrator.

Each definition is a shallow embedding of the corresponding Python
function, with machine floats rendered as rationals, exceptions as
explicit error values, and wall-clock time as an explicit parameter.
-/

namespace SSMFetcher

/-! ## Retry strategies and delay calculation
Embedding of `RetryStrategy` and `_calculate_delay` from
`aws_ssm_fetcher/core/error_handling.py`. The call to `random.random()`
is rendered as an explicit draw `r`, which the Python library guarantees
to lie in `[0, 1)`. -/

inductive RetryStrategy where
  | exponential_backoff
  | linear_backoff
  | fixed_interval
  | exponential_backoff_with_jitter
deriving DecidableEq, Repr

/-- Embeds `_calculate_delay(attempt, base_delay, max_delay, strategy,
jitter_factor)`; `r` is the value drawn by `random.random()`. -/
def calculate_delay (attempt : Nat) (base_delay max_delay : ℚ)
    (strategy : RetryStrategy) (jitter_factor : ℚ) (r : ℚ) : ℚ :=
  let delay : ℚ :=
    match strategy with
    | .fixed_interval => base_delay
    | .linear_backoff => base_delay * (attempt + 1)
    | .exponential_backoff => base_delay * 2 ^ attempt
    | .exponential_backoff_with_jitter =>
      let d := base_delay * 2 ^ attempt
      let jitter := d * jitter_factor * r
      d + jitter
  min delay max_delay

/-! ## Retry executor
Embedding of the `with_retry` decorator. Exception classification by
the `retryable_exceptions` / `non_retryable_exceptions` tuples becomes a
pair of boolean predicates (a Python `except (T1, T2)` clause catches
`e` exactly when `isinstance(e, (T1, T2))`). The wrapped callable is
allowed to be stateful — invocation `a` in state `s` yields a new state
and either a value or a raised error — so that the same executor
definition also applies to a circuit-breaker-protected callable. -/

structure RetryConfig (ε : Type) where
  max_attempts : Nat
  base_delay : ℚ
  max_delay : ℚ
  strategy : RetryStrategy
  jitter_factor : ℚ
  retryable : ε → Bool
  non_retryable : ε → Bool

/-- Outcome of the retry loop: a returned value, a re-raised error from
the wrapped callable, or the `RuntimeError("Retry logic error")` raised
when the loop body never runs. -/
inductive RetryOutcome (ε α : Type) where
  | ok : α → RetryOutcome ε α
  | err : ε → RetryOutcome ε α
  | logicError : RetryOutcome ε α
deriving DecidableEq, Repr

/-- Observable trace of one execution of the retry wrapper: final
outcome, number of invocations of the wrapped callable, the sequence of
delays slept, and the callable's final internal state. -/
structure RetryTrace (σ ε α : Type) where
  result : RetryOutcome ε α
  invocations : Nat
  sleeps : List ℚ
  finalState : σ
deriving DecidableEq, Repr

/-- The `for attempt in range(max_attempts)` loop of the `with_retry`
wrapper. `fuel` is the number of remaining iterations, `a` the current
zero-based attempt index, `inv` the invocation count so far, `sleeps`
the delays slept so far (most recent first). -/
def with_retry_go {σ ε α : Type} (cfg : RetryConfig ε)
    (step : σ → Nat → σ × Except ε α) (rand : Nat → ℚ) :
    Nat → Nat → σ → Nat → List ℚ → RetryTrace σ ε α
  | 0, _, s, inv, sleeps => ⟨.logicError, inv, sleeps.reverse, s⟩
  | fuel + 1, a, s, inv, sleeps =>
    let p := step s a
    let inv' := inv + 1
    match p.2 with
    | .ok v => ⟨.ok v, inv', sleeps.reverse, p.1⟩
    | .error e =>
      if cfg.non_retryable e then ⟨.err e, inv', sleeps.reverse, p.1⟩
      else if cfg.retryable e then
        if a = cfg.max_attempts - 1 then ⟨.err e, inv', sleeps.reverse, p.1⟩
        else
          let d := calculate_delay a cfg.base_delay cfg.max_delay
            cfg.strategy cfg.jitter_factor (rand a)
          with_retry_go cfg step rand fuel (a + 1) p.1 inv' (d :: sleeps)
      else if cfg.retryable e then
        -- mirrors the dead re-check in the bare `except Exception` branch
        if a = cfg.max_attempts - 1 then ⟨.err e, inv', sleeps.reverse, p.1⟩
        else
          let d := calculate_delay a cfg.base_delay cfg.max_delay
            cfg.strategy cfg.jitter_factor (rand a)
          with_retry_go cfg step rand fuel (a + 1) p.1 inv' (d :: sleeps)
      else ⟨.err e, inv', sleeps.reverse, p.1⟩

/-- `with_retry` applied to a stateful callable starting in state `s0`. -/
def with_retryS {σ ε α : Type} (cfg : RetryConfig ε)
    (step : σ → Nat → σ × Except ε α) (rand : Nat → ℚ) (s0 : σ) :
    RetryTrace σ ε α :=
  with_retry_go cfg step rand cfg.max_attempts 0 s0 0 []

/-- `with_retry` applied to a stateless callable: invocation `a` either
returns a value or raises `op a`. -/
def with_retry {ε α : Type} (cfg : RetryConfig ε) (op : Nat → Except ε α)
    (rand : Nat → ℚ) : RetryTrace Unit ε α :=
  with_retryS cfg (fun s a => (s, op a)) rand ()

/-! ## Circuit breaker
Embedding of `CircuitState`, `CircuitBreakerConfig` and `CircuitBreaker`
from `aws_ssm_fetcher/core/error_handling.py`. Wall-clock reads
(`datetime.now()`) become an explicit `now : ℚ` argument of `call`, and
the `expected_exception` type becomes the predicate `isExpected`. The
outcome of the wrapped callable is passed in as `res`; it is only
consulted when the breaker actually lets the call through. -/

inductive CircuitState where
  | closed
  | open_
  | half_open
deriving DecidableEq, Repr

/-- Errors observable from a breaker-protected call: either the wrapped
callable's own error, or the synthetic `CircuitBreakerOpenError`. -/
inductive BreakerErr (ε : Type) where
  | wrapped : ε → BreakerErr ε
  | circuitOpen : BreakerErr ε
deriving DecidableEq, Repr

structure CircuitBreakerConfig (ε : Type) where
  failure_threshold : Nat
  recovery_timeout : ℚ
  isExpected : ε → Bool
  half_open_max_calls : Nat

structure CircuitBreaker (ε : Type) where
  config : CircuitBreakerConfig ε
  state : CircuitState
  failure_count : Nat
  last_failure_time : Option ℚ
  half_open_calls : Nat
  total_calls : Nat
  successful_calls : Nat
  failed_calls : Nat
  circuit_opens : Nat

/-- `CircuitBreaker.__init__`. -/
def CircuitBreaker.init {ε : Type} (cfg : CircuitBreakerConfig ε) :
    CircuitBreaker ε :=
  ⟨cfg, .closed, 0, none, 0, 0, 0, 0, 0⟩

/-- `CircuitBreaker._should_attempt_reset`. -/
def CircuitBreaker.should_attempt_reset {ε : Type} (cb : CircuitBreaker ε)
    (now : ℚ) : Bool :=
  match cb.last_failure_time with
  | none => true
  | some t => decide (cb.config.recovery_timeout ≤ now - t)

/-- `CircuitBreaker._on_success`. -/
def CircuitBreaker.on_success {ε : Type} (cb : CircuitBreaker ε) :
    CircuitBreaker ε :=
  let cb := { cb with successful_calls := cb.successful_calls + 1,
                      failure_count := 0 }
  if cb.state = .half_open then
    let hoc := cb.half_open_calls + 1
    if cb.config.half_open_max_calls ≤ hoc then
      { cb with state := .closed, half_open_calls := 0 }
    else
      { cb with half_open_calls := hoc }
  else cb

/-- `CircuitBreaker._on_failure`. -/
def CircuitBreaker.on_failure {ε : Type} (cb : CircuitBreaker ε)
    (now : ℚ) : CircuitBreaker ε :=
  let cb := { cb with failed_calls := cb.failed_calls + 1,
                      failure_count := cb.failure_count + 1,
                      last_failure_time := some now }
  if cb.state = .half_open then
    { cb with state := .open_, circuit_opens := cb.circuit_opens + 1 }
  else if cb.config.failure_threshold ≤ cb.failure_count then
    { cb with state := .open_, circuit_opens := cb.circuit_opens + 1 }
  else cb

/-- `CircuitBreaker.call`. Returns the breaker after the call, the
call's outcome, and whether the wrapped callable was actually invoked. -/
def CircuitBreaker.call {ε α : Type} (cb : CircuitBreaker ε) (now : ℚ)
    (res : Except ε α) : CircuitBreaker ε × Except (BreakerErr ε) α × Bool :=
  let cb := { cb with total_calls := cb.total_calls + 1 }
  let attempt :=
    if cb.state = .open_ then
      if cb.should_attempt_reset now then
        (some { cb with state := .half_open, half_open_calls := 0 })
      else none
    else some cb
  match attempt with
  | none => (cb, .error .circuitOpen, false)
  | some cb =>
    match res with
    | .ok v => (cb.on_success, .ok v, true)
    | .error e =>
      if cb.config.isExpected e then
        (cb.on_failure now, .error (.wrapped e), true)
      else
        (cb, .error (.wrapped e), true)

/-! ## Combined retry + circuit breaker
Embedding of `with_retry_and_circuit_breaker`: the source builds
`circuit_protected = with_circuit_breaker(circuit_config)(func)` (one
fresh breaker instance closed over by the wrapper) and then
`retry_protected = with_retry(retry_config)(circuit_protected)`. The
breaker-protected callable is stateful: its state is the breaker itself
paired with the number of invocations of the raw operation. -/

/-- The breaker-protected callable produced by `with_circuit_breaker`:
attempt `a` happens at wall-clock time `times a` and the raw operation,
if invoked, yields `op a`. -/
def circuit_protected_step {ε α : Type} (op : Nat → Except ε α)
    (times : Nat → ℚ) (s : CircuitBreaker ε × Nat) (a : Nat) :
    (CircuitBreaker ε × Nat) × Except (BreakerErr ε) α :=
  let r := s.1.call (times a) (op a)
  ((r.1, s.2 + (if r.2.2 then 1 else 0)), r.2.1)

/-- `with_retry_and_circuit_breaker`: the retry executor wrapped around
the breaker-protected call, the breaker starting fresh from
`CircuitBreaker.init`. -/
def with_retry_and_circuit_breaker {ε α : Type}
    (retry_config : RetryConfig (BreakerErr ε))
    (circuit_config : CircuitBreakerConfig ε) (op : Nat → Except ε α)
    (times : Nat → ℚ) (rand : Nat → ℚ) :
    RetryTrace (CircuitBreaker ε × Nat) (BreakerErr ε) α :=
  with_retryS retry_config (circuit_protected_step op times) rand
    (CircuitBreaker.init circuit_config, 0)

/-! ## Tiered cache
Embedding of `CacheManager` from
`lambda_functions/shared_layer/python/aws_ssm_fetcher/core/cache.py`.
The three tiers (in-process `_memory_cache` dict, local `.pkl` files
keyed by sanitized key with their modification time, S3 objects keyed by
the raw key with their last-modified time) are association lists; file
and S3 I/O is modelled as succeeding, with `now : ℚ` (in hours) standing
for `datetime.now()` / `datetime.utcnow()` and the timestamps each store
keeps. -/

/-- Association-list lookup (Python `dict` / file-system lookup). -/
def alook {β : Type} (l : List (String × β)) (k : String) : Option β :=
  (l.find? (fun p => p.1 == k)).map (fun p => p.2)

/-- Association-list removal. -/
def aerase {β : Type} (l : List (String × β)) (k : String) :
    List (String × β) :=
  l.filter (fun p => p.1 != k)

/-- Association-list insertion/replacement (Python `d[k] = v`). -/
def aset {β : Type} (l : List (String × β)) (k : String) (v : β) :
    List (String × β) :=
  (k, v) :: aerase l k

structure CacheConfig where
  cache_enabled : Bool
  cache_hours : ℚ
  s3_configured : Bool

/-- `self.cache_enabled = config.cache_enabled and config.cache_hours > 0`
from `CacheManager.__init__`. -/
def CacheConfig.enabled (cfg : CacheConfig) : Bool :=
  cfg.cache_enabled && decide (0 < cfg.cache_hours)

/-- The three tier stores. Local and remote entries carry the write
timestamp (file mtime, S3 `LastModified`). -/
structure CacheState (α : Type) where
  memory : List (String × α)
  localTier : List (String × (α × ℚ))
  remote : List (String × (α × ℚ))

/-- `CacheManager._get_cache_path`: the key with `/` and `:` replaced by
`_` (the `.pkl` suffix is left implicit). -/
def safe_key (k : String) : String :=
  String.map (fun c => if c == '/' || c == ':' then '_' else c) k

/-- `CacheManager._get_from_local` combined with `_is_cache_valid`: the
file is valid while `now < mtime + cache_hours`. -/
def get_from_local {α : Type} (cfg : CacheConfig) (st : CacheState α)
    (now : ℚ) (key : String) : Option α :=
  match alook st.localTier (safe_key key) with
  | none => none
  | some vt => if decide (now < vt.2 + cfg.cache_hours) then some vt.1 else none

/-- `CacheManager._set_to_local`: writes the file with mtime `now` and
reports success. -/
def set_to_local {α : Type} (st : CacheState α) (now : ℚ) (key : String)
    (data : α) : Bool × CacheState α :=
  (true, { st with localTier := aset st.localTier (safe_key key) (data, now) })

/-- `CacheManager._get_from_s3`: the object is stale when
`utcnow - last_modified > cache_hours`. -/
def get_from_s3 {α : Type} (cfg : CacheConfig) (st : CacheState α)
    (now : ℚ) (key : String) : Option α :=
  if cfg.s3_configured then
    match alook st.remote key with
    | none => none
    | some vt => if decide (cfg.cache_hours < now - vt.2) then none else some vt.1
  else none

/-- `CacheManager._set_to_s3`. -/
def set_to_s3 {α : Type} (cfg : CacheConfig) (st : CacheState α) (now : ℚ)
    (key : String) (data : α) : CacheState α :=
  if cfg.s3_configured then
    { st with remote := aset st.remote key (data, now) }
  else st

/-- `CacheManager.get`: memory tier first (no TTL check), then local
file tier (promoting a hit to memory), then S3 (writing a hit through to
the local file and memory tiers). -/
def CacheManager.get {α : Type} (cfg : CacheConfig) (st : CacheState α)
    (now : ℚ) (key : String) : Option α × CacheState α :=
  if ¬ cfg.enabled then (none, st)
  else
    match alook st.memory key with
    | some v => (some v, st)
    | none =>
      match get_from_local cfg st now key with
      | some v => (some v, { st with memory := aset st.memory key v })
      | none =>
        if cfg.s3_configured then
          match get_from_s3 cfg st now key with
          | some v =>
            let st := (set_to_local st now key v).2
            (some v, { st with memory := aset st.memory key v })
          | none => (none, st)
        else (none, st)

/-- `CacheManager.set`: writes memory, then the local file (whose
success is the return value), then S3 when configured. -/
def CacheManager.set {α : Type} (cfg : CacheConfig) (st : CacheState α)
    (now : ℚ) (key : String) (data : α) : Bool × CacheState α :=
  if ¬ cfg.enabled then (false, st)
  else
    let st := { st with memory := aset st.memory key data }
    let p := set_to_local st now key data
    let st := if cfg.s3_configured then set_to_s3 cfg p.2 now key data else p.2
    (p.1, st)

/-- `CacheManager.clear_all`: empties the memory dict and deletes every
local `.pkl` file, counting both; the S3 tier is not touched. -/
def CacheManager.clear_all {α : Type} (st : CacheState α) :
    Nat × CacheState α :=
  (st.memory.length + st.localTier.length,
    { st with memory := [], localTier := [] })

/-- `CacheManager.clear`: with a key, removes it from the memory dict
(counting a removal when present), deletes the local file (counting when
it existed) and issues an S3 `delete_object` when S3 is configured
(which succeeds and is counted whether or not the object exists);
without a key, delegates to `clear_all`. -/
def CacheManager.clear {α : Type} (cfg : CacheConfig) (st : CacheState α)
    (key : Option String) : Nat × CacheState α :=
  match key with
  | some k =>
    let c1 : Nat := if (alook st.memory k).isSome then 1 else 0
    let st := { st with memory := aerase st.memory k }
    let c2 : Nat := if (alook st.localTier (safe_key k)).isSome then 1 else 0
    let st := { st with localTier := aerase st.localTier (safe_key k) }
    let c3 : Nat := if cfg.s3_configured then 1 else 0
    let st := if cfg.s3_configured then { st with remote := aerase st.remote k }
              else st
    (c1 + c2 + c3, st)
  | none => CacheManager.clear_all st

/-! ## Processing pipeline
Embedding of `PipelineStage`, `PipelineExecutionContext` and
`ProcessingPipeline` from `aws_ssm_fetcher/processors/pipeline.py`.
Stage bodies (the business logic between `start_stage` and
`complete_stage` in each `_execute_*_stage` method) are abstracted as
`impl : PipelineStage → Except ε ρ`; each such method follows the same
skeleton: `start_stage`, run the body, `complete_stage` on success, and
on an exception `fail_stage` followed by re-raising a `PipelineError`
naming the stage.  Timestamps are elided: the `started` list records
which stages got a `stage_timings` entry, and `finalize_count` counts
the `finalize()` calls that stamp `end_time`. -/

inductive PipelineStage where
  | discovery
  | mapping
  | transformation
  | analysis
  | validation
  | output
deriving DecidableEq, Repr

structure PipelineExecutionContext (ε ρ : Type) where
  started : List PipelineStage
  completed_stages : List PipelineStage
  failed_stages : List PipelineStage
  stage_results : List (PipelineStage × ρ)
  errors : List (PipelineStage × ε)
  finalize_count : Nat
  current_stage : Option PipelineStage
deriving DecidableEq, Repr

namespace PipelineExecutionContext

/-- `PipelineExecutionContext.__init__`. -/
def init (ε ρ : Type) : PipelineExecutionContext ε ρ :=
  ⟨[], [], [], [], [], 0, none⟩

/-- `PipelineExecutionContext.start_stage`. -/
def start_stage {ε ρ : Type} (ctx : PipelineExecutionContext ε ρ)
    (s : PipelineStage) : PipelineExecutionContext ε ρ :=
  { ctx with current_stage := some s, started := ctx.started ++ [s] }

/-- `PipelineExecutionContext.complete_stage` (the result is stored only
when it is not `None`). -/
def complete_stage {ε ρ : Type} (ctx : PipelineExecutionContext ε ρ)
    (s : PipelineStage) (result : Option ρ) : PipelineExecutionContext ε ρ :=
  { ctx with
    completed_stages := ctx.completed_stages ++ [s],
    stage_results := match result with
      | some r => ctx.stage_results ++ [(s, r)]
      | none => ctx.stage_results,
    current_stage := none }

/-- `PipelineExecutionContext.fail_stage`. -/
def fail_stage {ε ρ : Type} (ctx : PipelineExecutionContext ε ρ)
    (s : PipelineStage) (e : ε) : PipelineExecutionContext ε ρ :=
  { ctx with
    failed_stages := ctx.failed_stages ++ [s],
    errors := ctx.errors ++ [(s, e)],
    current_stage := none }

/-- `PipelineExecutionContext.finalize` (stamps `end_time`). -/
def finalize {ε ρ : Type} (ctx : PipelineExecutionContext ε ρ) :
    PipelineExecutionContext ε ρ :=
  { ctx with finalize_count := ctx.finalize_count + 1 }

end PipelineExecutionContext

/-- The configuration keys that decide which stages run
(`enable_statistics` and `enable_validation` from `pipeline_config`,
possibly overridden by the merged input). -/
structure PipelineConfig where
  enable_statistics : Bool
  enable_validation : Bool

/-- The stage order fixed by `_execute_pipeline_stages`: discovery,
mapping, transformation, then analysis when statistics are enabled,
validation when validation is enabled, and output. -/
def stage_sequence (cfg : PipelineConfig) : List PipelineStage :=
  [.discovery, .mapping, .transformation]
    ++ (if cfg.enable_statistics then [.analysis] else [])
    ++ (if cfg.enable_validation then [.validation] else [])
    ++ [.output]

/-- `PipelineError` as raised from a failed `_execute_*_stage` method
and re-wrapped by `process`: it names the failed stage and carries the
root cause. -/
structure PipelineError (ε : Type) where
  stage : PipelineStage
  cause : ε
deriving DecidableEq, Repr

/-- The shared skeleton of every `_execute_*_stage` method:
`start_stage`, run the body, then `complete_stage` with the body's
result, or on an exception `fail_stage` and raise a `PipelineError`
naming the stage. -/
def execute_stage {ε ρ : Type} (ctx : PipelineExecutionContext ε ρ)
    (s : PipelineStage) (body : Except ε ρ) :
    PipelineExecutionContext ε ρ × Except (PipelineStage × ε) ρ :=
  let ctx := ctx.start_stage s
  match body with
  | .ok r => (ctx.complete_stage s (some r), .ok r)
  | .error e => (ctx.fail_stage s e, .error (s, e))

/-- `_execute_pipeline_stages`: run the configured stages in order,
aborting on the first stage whose body raises. -/
def execute_pipeline_stages {ε ρ : Type}
    (impl : PipelineStage → Except ε ρ) :
    List PipelineStage → PipelineExecutionContext ε ρ →
    PipelineExecutionContext ε ρ × Except (PipelineStage × ε) Unit
  | [], ctx => (ctx, .ok ())
  | s :: rest, ctx =>
    let p := execute_stage ctx s (impl s)
    match p.2 with
    | .error pe => (p.1, .error pe)
    | .ok _ => execute_pipeline_stages impl rest p.1

/-- `ProcessingPipeline.process`: build a fresh execution context, run
the stage sequence, and finalize exactly once on both the success path
and the failure path; a failure surfaces as a single `PipelineError`
naming the failed stage and wrapping the root cause. -/
def ProcessingPipeline.process {ε ρ : Type}
    (impl : PipelineStage → Except ε ρ) (cfg : PipelineConfig) :
    PipelineExecutionContext ε ρ ×
      Except (PipelineError ε) (List (PipelineStage × ρ)) :=
  let p := execute_pipeline_stages impl (stage_sequence cfg)
    (PipelineExecutionContext.init ε ρ)
  match p.2 with
  | .ok _ => (p.1.finalize, .ok p.1.stage_results)
  | .error se => (p.1.finalize, .error ⟨se.1, se.2⟩)

/-! ## Delay-calculation claims (C6, C7) -/

/-- C7 counterexample: with the fixed strategy, `baseDelay = -1` and
`maxDelay = 60`, the computed delay is `-1`, which lies outside
`[0, maxDelay]` — `_calculate_delay` clamps only from above. -/
theorem calculate_delay_not_clamped_below :
    ¬ (0 ≤ calculate_delay 0 (-1) 60 .fixed_interval 0 0 ∧
       calculate_delay 0 (-1) 60 .fixed_interval 0 0 ≤ 60) := by
  intro h
  have := h.1
  norm_num [calculate_delay] at this

/-- C7 (amended): for every strategy and attempt, when the configured
`baseDelay`, `maxDelay`, `jitterFactor` and the random draw are all
nonnegative, the computed delay lies in `[0, maxDelay]`. -/
theorem calculate_delay_mem_zero_max (attempt : Nat)
    (b m j r : ℚ) (strategy : RetryStrategy)
    (hb : 0 ≤ b) (hj : 0 ≤ j) (hr : 0 ≤ r) (hm : 0 ≤ m) :
    0 ≤ calculate_delay attempt b m strategy j r ∧
      calculate_delay attempt b m strategy j r ≤ m := by
  unfold calculate_delay
  refine ⟨?_, min_le_right _ _⟩
  apply le_min _ hm
  cases strategy <;> simp only <;> positivity

/-- C7 witness. -/
theorem calculate_delay_mem_zero_max_witness :
    0 ≤ (1 : ℚ) ∧ 0 ≤ (1 / 10 : ℚ) ∧ 0 ≤ (1 / 2 : ℚ) ∧ 0 ≤ (60 : ℚ) ∧
      (0 ≤ calculate_delay 3 1 60 .exponential_backoff_with_jitter (1 / 10) (1 / 2) ∧
        calculate_delay 3 1 60 .exponential_backoff_with_jitter (1 / 10) (1 / 2) ≤ 60) :=
  ⟨by norm_num, by norm_num, by norm_num, by norm_num,
    calculate_delay_mem_zero_max 3 1 60 (1 / 10) (1 / 2)
      .exponential_backoff_with_jitter (by norm_num) (by norm_num)
      (by norm_num) (by norm_num)⟩

/-- C6 counterexample: with `baseDelay = 1`, `maxDelay = 60`,
attempt `10` and jitter draw `0`, the exponential term `2 ^ 10 = 1024`
exceeds `maxDelay`, the clamp brings the delay down to `60`, and the
claimed lower bound `baseDelay * 2 ^ attempt` fails. -/
theorem calculate_delay_jitter_interval_fails :
    ¬ ((1 : ℚ) * 2 ^ 10 ≤
        calculate_delay 10 1 60 .exponential_backoff_with_jitter (1 / 10) 0 ∧
       calculate_delay 10 1 60 .exponential_backoff_with_jitter (1 / 10) 0 ≤
        min 60 ((1 : ℚ) * 2 ^ 10 * (1 + 1 / 10))) := by
  intro h
  have := h.1
  norm_num [calculate_delay] at this

/-- C6 (amended): for the exponential-with-jitter strategy, when
`0 ≤ baseDelay`, `0 ≤ jitterFactor`, the random draw lies in `[0, 1)`
and the unjittered exponential term `baseDelay * 2 ^ attempt` does not
exceed `maxDelay`, the computed delay lies in
`[baseDelay * 2 ^ attempt, min maxDelay (baseDelay * 2 ^ attempt * (1 + jitterFactor))]`. -/
theorem calculate_delay_jitter_interval (attempt : Nat) (b m j r : ℚ)
    (hb : 0 ≤ b) (hj : 0 ≤ j) (hr0 : 0 ≤ r) (hr1 : r < 1)
    (hle : b * 2 ^ attempt ≤ m) :
    b * 2 ^ attempt ≤
        calculate_delay attempt b m .exponential_backoff_with_jitter j r ∧
      calculate_delay attempt b m .exponential_backoff_with_jitter j r ≤
        min m (b * 2 ^ attempt * (1 + j)) := by
  have hd : (0 : ℚ) ≤ b * 2 ^ attempt := by positivity
  unfold calculate_delay
  simp only
  constructor
  · apply le_min _ hle
    nlinarith [mul_nonneg (mul_nonneg hd hj) hr0]
  · apply le_min (min_le_right _ _)
    apply le_trans (min_le_left _ _)
    nlinarith [mul_nonneg hd hj, hr1.le]

/-- C6 witness. -/
theorem calculate_delay_jitter_interval_witness :
    0 ≤ (1 : ℚ) ∧ 0 ≤ (1 / 10 : ℚ) ∧ 0 ≤ (1 / 2 : ℚ) ∧ (1 / 2 : ℚ) < 1 ∧
      (1 : ℚ) * 2 ^ 3 ≤ 100 ∧
      ((1 : ℚ) * 2 ^ 3 ≤
          calculate_delay 3 1 100 .exponential_backoff_with_jitter (1 / 10) (1 / 2) ∧
        calculate_delay 3 1 100 .exponential_backoff_with_jitter (1 / 10) (1 / 2) ≤
          min 100 ((1 : ℚ) * 2 ^ 3 * (1 + 1 / 10))) :=
  ⟨by norm_num, by norm_num, by norm_num, by norm_num, by norm_num,
    calculate_delay_jitter_interval 3 1 100 (1 / 10) (1 / 2)
      (by norm_num) (by norm_num) (by norm_num) (by norm_num) (by norm_num)⟩

/-! ## Retry-executor claims (C1, C5) -/

/-- C1 counterexample: an error classified by neither the retryable nor
the non-retryable set (both predicates `false`) is raised on the first
attempt: the operation is invoked once, not `maxAttempts = 3` times —
the fallback `except Exception` branch re-checks the same retryable
tuple, which already failed to match, and re-raises. -/
theorem with_retry_unclassified_counterexample :
    (with_retry (ε := Nat) (α := Nat)
        ⟨3, 1, 60, .fixed_interval, 0, fun _ => false, fun _ => false⟩
        (fun _ => .error 7) (fun _ => 0)).invocations = 1 ∧
      (with_retry (ε := Nat) (α := Nat)
        ⟨3, 1, 60, .fixed_interval, 0, fun _ => false, fun _ => false⟩
        (fun _ => .error 7) (fun _ => 0)).invocations ≠ 3 := by
  constructor
  · rfl
  · intro h
    rw [show (with_retry (ε := Nat) (α := Nat)
        ⟨3, 1, 60, .fixed_interval, 0, fun _ => false, fun _ => false⟩
        (fun _ => .error 7) (fun _ => 0)).invocations = 1 from rfl] at h
    omega

/-- C1 (amended): an error belonging to neither the configured
retryable set nor the configured non-retryable set is surfaced
immediately: the operation is invoked exactly once, the raw error is
re-raised, and no delay is slept. -/
theorem with_retry_unclassified_raises_immediately {ε α : Type}
    (cfg : RetryConfig ε) (op : Nat → Except ε α) (rand : Nat → ℚ) (e : ε)
    (hmax : 1 ≤ cfg.max_attempts) (hop : op 0 = .error e)
    (hnr : cfg.non_retryable e = false) (hr : cfg.retryable e = false) :
    with_retry cfg op rand = ⟨.err e, 1, [], ()⟩ := by
  unfold with_retry with_retryS
  obtain ⟨f, hf⟩ : ∃ f, cfg.max_attempts = f + 1 :=
    ⟨cfg.max_attempts - 1, by omega⟩
  rw [hf]
  simp [with_retry_go, hop, hnr, hr]

/-- C1 witness. -/
theorem with_retry_unclassified_raises_immediately_witness :
    with_retry (ε := Nat) (α := Nat)
        ⟨3, 1, 60, .fixed_interval, 0, fun _ => false, fun _ => false⟩
        (fun _ => .error 7) (fun _ => 0) = ⟨.err 7, 1, [], ()⟩ :=
  with_retry_unclassified_raises_immediately
    ⟨3, 1, 60, .fixed_interval, 0, fun _ => false, fun _ => false⟩
    (fun _ => .error 7) (fun _ => 0) 7 (by decide) rfl rfl rfl

/-- Helper for C5: on an operation whose every invocation raises a
retryable (and not non-retryable) error, the retry loop runs through all
its fuel and re-raises the error of the final attempt. -/
theorem with_retry_go_all_retryable {ε α : Type} (cfg : RetryConfig ε)
    (op : Nat → Except ε α) (er : Nat → ε) (rand : Nat → ℚ)
    (hop : ∀ n, op n = .error (er n))
    (hnr : ∀ n, cfg.non_retryable (er n) = false)
    (hr : ∀ n, cfg.retryable (er n) = true) :
    ∀ fuel a inv sleeps, 1 ≤ fuel → a + fuel = cfg.max_attempts →
      (with_retry_go cfg (fun s n => (s, op n)) rand fuel a () inv
          sleeps).result = .err (er (cfg.max_attempts - 1)) ∧
        (with_retry_go cfg (fun s n => (s, op n)) rand fuel a () inv
          sleeps).invocations = inv + fuel := by
  intro fuel
  induction fuel with
  | zero => intro a inv sleeps h1 _; omega
  | succ f ih =>
    intro a inv sleeps _ hsum
    rcases Nat.eq_zero_or_pos f with hf | hf
    · subst hf
      have ha : a = cfg.max_attempts - 1 := by omega
      simp [with_retry_go, hop, hnr, hr, ha]
    · have ha : ¬ (a = cfg.max_attempts - 1) := by omega
      have step := ih (a + 1) (inv + 1)
        (calculate_delay a cfg.base_delay cfg.max_delay cfg.strategy
          cfg.jitter_factor (rand a) :: sleeps) (by omega) (by omega)
      simp only [with_retry_go, hop, hnr, hr, ha, if_false, if_true,
        Bool.false_eq_true] at step ⊢
      exact ⟨step.1, by omega⟩

/-- C5 (amended): an operation that raises a retryable error on every
invocation is invoked exactly `maxAttempts` times, after which the final
attempt's error is surfaced as-is — exhaustion is logged but the error
is re-raised unwrapped. -/
theorem with_retry_exhausts_attempts {ε α : Type} (cfg : RetryConfig ε)
    (op : Nat → Except ε α) (er : Nat → ε) (rand : Nat → ℚ)
    (hmax : 1 ≤ cfg.max_attempts)
    (hop : ∀ n, op n = .error (er n))
    (hnr : ∀ n, cfg.non_retryable (er n) = false)
    (hr : ∀ n, cfg.retryable (er n) = true) :
    (with_retry cfg op rand).invocations = cfg.max_attempts ∧
      (with_retry cfg op rand).result = .err (er (cfg.max_attempts - 1)) := by
  have h := with_retry_go_all_retryable cfg op er rand hop hnr hr
    cfg.max_attempts 0 0 [] hmax (by omega)
  exact ⟨by simpa [with_retry, with_retryS] using h.2,
    by simpa [with_retry, with_retryS] using h.1⟩

/-- C5 witness. -/
theorem with_retry_exhausts_attempts_witness :
    (with_retry (ε := Nat) (α := Nat)
        ⟨3, 1, 60, .fixed_interval, 0, fun _ => true, fun _ => false⟩
        (fun _ => .error 7) (fun _ => 0)).invocations = 3 ∧
      (with_retry (ε := Nat) (α := Nat)
        ⟨3, 1, 60, .fixed_interval, 0, fun _ => true, fun _ => false⟩
        (fun _ => .error 7) (fun _ => 0)).result = .err 7 :=
  with_retry_exhausts_attempts
    ⟨3, 1, 60, .fixed_interval, 0, fun _ => true, fun _ => false⟩
    (fun _ => .error 7) (fun _ => 7) (fun _ => 0) (by decide)
    (fun _ => rfl) (fun _ => rfl) (fun _ => rfl)

/-- C5 counterexample: the error surfaced after exhausting the three
attempts is byte-for-byte the operation's own final error (`7`), not a
distinct retry-exhausted wrapper — `with_retry` ends with `raise e` on
the original exception object. -/
theorem with_retry_exhaustion_not_wrapped :
    (with_retry (ε := Nat) (α := Nat)
        ⟨3, 1, 60, .fixed_interval, 0, fun _ => true, fun _ => false⟩
        (fun _ => .error 7) (fun _ => 0)).result = .err 7 ∧
      (fun _ => (.error 7 : Except Nat Nat)) 2 = .error 7 ∧
      (with_retry (ε := Nat) (α := Nat)
        ⟨3, 1, 60, .fixed_interval, 0, fun _ => true, fun _ => false⟩
        (fun _ => .error 7) (fun _ => 0)).invocations = 3 := by
  refine ⟨?_, rfl, ?_⟩ <;> decide

/-! ## Tiered-cache claims (C4, C9, C10) -/

theorem alook_aset_self {β : Type} (l : List (String × β)) (k : String)
    (v : β) : alook (aset l k v) k = some v := by
  simp [alook, aset, List.find?]

theorem alook_aerase_self {β : Type} (l : List (String × β)) (k : String) :
    alook (aerase l k) k = none := by
  have h : List.find? (fun p => p.1 == k) (aerase l k) = none := by
    rw [List.find?_eq_none]
    intro x hx
    have hmem := List.mem_filter.mp hx
    simpa using hmem.2
  simp [alook, h]

/-- C4 counterexample: with a TTL of one hour, an entry written at time
`0` and read at time `100` — long after the TTL elapsed — is still
returned, because the in-process memory tier serves entries without any
TTL check. -/
theorem tiered_cache_memory_ttl_counterexample :
    (0 : ℚ) + 1 < 100 ∧
      (CacheManager.get ⟨true, 1, false⟩
          (CacheManager.set ⟨true, 1, false⟩
            (⟨[], [], []⟩ : CacheState Nat) 0 "k" 5).2 100 "k").1 = some 5 := by
  constructor
  · norm_num
  · rfl

/-- C4 (amended): on an enabled cache, `set(k, v)` followed by `get(k)`
returns `v` (at any later read time); and a `get(k)` performed after the
TTL has elapsed returns absent provided the entry is no longer held in
the in-process memory tier — the local and remote tiers enforce the TTL,
the memory tier does not. -/
theorem tiered_cache_set_get_and_expiry {α : Type} :
    (∀ (cfg : CacheConfig) (st : CacheState α) (now now2 : ℚ)
        (k : String) (v : α), cfg.enabled = true →
      (CacheManager.get cfg (CacheManager.set cfg st now k v).2 now2 k).1 =
        some v) ∧
    (∀ (cfg : CacheConfig) (st : CacheState α) (now : ℚ) (k : String),
      cfg.enabled = true →
      alook st.memory k = none →
      (∀ v t, alook st.localTier (safe_key k) = some (v, t) →
        t + cfg.cache_hours ≤ now) →
      (∀ v t, alook st.remote k = some (v, t) → cfg.cache_hours < now - t) →
      (CacheManager.get cfg st now k).1 = none) := by
  constructor
  · intro cfg st now now2 k v he
    have hmem : (CacheManager.set cfg st now k v).2.memory =
        aset st.memory k v := by
      simp [CacheManager.set, he, set_to_local, set_to_s3]
      by_cases hs3 : cfg.s3_configured <;> simp [hs3]
    simp [CacheManager.get, he, hmem, alook_aset_self]
  · intro cfg st now k he hmem hlocal hremote
    have hloc : get_from_local cfg st now k = none := by
      unfold get_from_local
      cases hfind : alook st.localTier (safe_key k) with
      | none => simp
      | some vt =>
        have := hlocal vt.1 vt.2 (by simpa using hfind)
        simp [not_lt.mpr this]
    have hs3 : get_from_s3 cfg st now k = none := by
      unfold get_from_s3
      by_cases hcfg : cfg.s3_configured
      · cases hfind : alook st.remote k with
        | none => simp [hcfg]
        | some vt =>
          have := hremote vt.1 vt.2 (by simpa using hfind)
          simp [hcfg, this]
      · simp [hcfg]
    by_cases hcfg : cfg.s3_configured <;>
      simp [CacheManager.get, he, hmem, hloc, hs3, hcfg]

/-- C4 witness. -/
theorem tiered_cache_set_get_and_expiry_witness :
    ((⟨true, 1, true⟩ : CacheConfig).enabled = true ∧
      (CacheManager.get ⟨true, 1, true⟩
        (CacheManager.set ⟨true, 1, true⟩ (⟨[], [], []⟩ : CacheState Nat)
          0 "k" 5).2 0 "k").1 = some 5) ∧
    ((⟨true, 1, true⟩ : CacheConfig).enabled = true ∧
      (CacheManager.get ⟨true, 1, true⟩
        (⟨[], [("k", (5, 0))], [("k", (5, 0))]⟩ : CacheState Nat)
        100 "k").1 = none) :=
  ⟨⟨rfl, (tiered_cache_set_get_and_expiry (α := Nat)).1
      ⟨true, 1, true⟩ ⟨[], [], []⟩ 0 0 "k" 5 rfl⟩,
   ⟨rfl, (tiered_cache_set_get_and_expiry (α := Nat)).2
      ⟨true, 1, true⟩ ⟨[], [("k", (5, 0))], [("k", (5, 0))]⟩ 100 "k" rfl rfl
      (by intro v t h; simp [alook] at h; obtain ⟨h1, h2, ht⟩ := h;
          rw [← ht]; norm_num)
      (by intro v t h; simp [alook] at h; obtain ⟨h2, ht⟩ := h;
          rw [← ht]; norm_num)⟩⟩

/-- C9 counterexample: with S3 configured and key `"k"` present only in
the memory tier, `clear("k")` reports `2` removals although a single
entry existed (the S3 `delete_object` is counted regardless); and
`clear()` with no key leaves a remote entry in place — `clear_all` never
touches the S3 tier. -/
theorem cache_clear_counterexample :
    (CacheManager.clear ⟨true, 1, true⟩
        (⟨[("k", 5)], [], []⟩ : CacheState Nat) (some "k")).1 = 2 ∧
      ((⟨[("k", 5)], [], []⟩ : CacheState Nat).memory.length +
        (⟨[("k", 5)], [], []⟩ : CacheState Nat).localTier.length +
        (⟨[("k", 5)], [], []⟩ : CacheState Nat).remote.length) = 1 ∧
      (CacheManager.clear ⟨true, 1, true⟩
        (⟨[], [], [("k", (5, 0))]⟩ : CacheState Nat) none).2.remote =
        [("k", (5, 0))] := by
  refine ⟨rfl, rfl, rfl⟩

/-- C9 (amended): `clear(k)` removes `k` from every configured tier, and
returns one count for a memory-dict hit, one for an existing local cache
file, and one for the remote tier whenever it is configured (whether or
not the object existed there); `clear()` with no key purges the memory
and local tiers, returning the number of entries they held — remote
entries are left to expire on their own. -/
theorem cache_clear_behavior {α : Type} :
    (∀ (cfg : CacheConfig) (st : CacheState α) (k : String),
      alook (CacheManager.clear cfg st (some k)).2.memory k = none ∧
      alook (CacheManager.clear cfg st (some k)).2.localTier (safe_key k) =
        none ∧
      (cfg.s3_configured = true →
        alook (CacheManager.clear cfg st (some k)).2.remote k = none) ∧
      (CacheManager.clear cfg st (some k)).1 =
        ((if (alook st.memory k).isSome then 1 else 0) +
          (if (alook st.localTier (safe_key k)).isSome then 1 else 0) +
          (if cfg.s3_configured then 1 else 0))) ∧
    (∀ (cfg : CacheConfig) (st : CacheState α),
      CacheManager.clear cfg st none =
        (st.memory.length + st.localTier.length,
          { st with memory := [], localTier := [] })) := by
  constructor
  · intro cfg st k
    refine ⟨?_, ?_, ?_, ?_⟩
    · by_cases hs3 : cfg.s3_configured <;>
        simp [CacheManager.clear, hs3, alook_aerase_self]
    · by_cases hs3 : cfg.s3_configured <;>
        simp [CacheManager.clear, hs3, alook_aerase_self]
    · intro hs3
      simp [CacheManager.clear, hs3, alook_aerase_self]
    · by_cases hs3 : cfg.s3_configured <;> simp [CacheManager.clear, hs3]
  · intro cfg st
    rfl

/-- C9 witness. -/
theorem cache_clear_behavior_witness :
    (alook (CacheManager.clear ⟨true, 1, true⟩
        (⟨[("k", 5)], [("k", (5, 0))], [("k", (5, 0))]⟩ : CacheState Nat)
        (some "k")).2.memory "k" = none ∧
      alook (CacheManager.clear ⟨true, 1, true⟩
        (⟨[("k", 5)], [("k", (5, 0))], [("k", (5, 0))]⟩ : CacheState Nat)
        (some "k")).2.localTier (safe_key "k") = none ∧
      ((⟨true, 1, true⟩ : CacheConfig).s3_configured = true →
        alook (CacheManager.clear ⟨true, 1, true⟩
          (⟨[("k", 5)], [("k", (5, 0))], [("k", (5, 0))]⟩ : CacheState Nat)
          (some "k")).2.remote "k" = none) ∧
      (CacheManager.clear ⟨true, 1, true⟩
        (⟨[("k", 5)], [("k", (5, 0))], [("k", (5, 0))]⟩ : CacheState Nat)
        (some "k")).1 =
        ((if (alook (⟨[("k", 5)], [("k", (5, 0))], [("k", (5, 0))]⟩ :
              CacheState Nat).memory "k").isSome then 1 else 0) +
          (if (alook (⟨[("k", 5)], [("k", (5, 0))], [("k", (5, 0))]⟩ :
              CacheState Nat).localTier (safe_key "k")).isSome then 1 else 0) +
          (if (⟨true, 1, true⟩ : CacheConfig).s3_configured then 1 else 0))) ∧
    CacheManager.clear ⟨true, 1, true⟩
        (⟨[("k", 5)], [("k", (5, 0))], [("k", (5, 0))]⟩ : CacheState Nat)
        none =
      ((⟨[("k", 5)], [("k", (5, 0))], [("k", (5, 0))]⟩ :
          CacheState Nat).memory.length +
        (⟨[("k", 5)], [("k", (5, 0))], [("k", (5, 0))]⟩ :
          CacheState Nat).localTier.length,
        ⟨[], [], [("k", (5, 0))]⟩) :=
  ⟨(cache_clear_behavior (α := Nat)).1 ⟨true, 1, true⟩
      ⟨[("k", 5)], [("k", (5, 0))], [("k", (5, 0))]⟩ "k",
   (cache_clear_behavior (α := Nat)).2 ⟨true, 1, true⟩
      ⟨[("k", 5)], [("k", (5, 0))], [("k", (5, 0))]⟩⟩

/-- C10: when caching is disabled at construction — the enabled flag is
false or the configured TTL in hours is not positive — `get` returns
absent, `set` returns `False`, and neither touches any tier, whatever
the prior state. -/
theorem cache_disabled_noop {α : Type} (cfg : CacheConfig)
    (st : CacheState α) (now : ℚ) (k : String) (v : α)
    (h : cfg.cache_enabled = false ∨ cfg.cache_hours ≤ 0) :
    CacheManager.get cfg st now k = (none, st) ∧
      CacheManager.set cfg st now k v = (false, st) := by
  have he : cfg.enabled = false := by
    rcases h with h | h
    · simp [CacheConfig.enabled, h]
    · simp [CacheConfig.enabled, not_lt.mpr h]
  simp [CacheManager.get, CacheManager.set, he]

/-- C10 witness. -/
theorem cache_disabled_noop_witness :
    ((⟨false, 1, true⟩ : CacheConfig).cache_enabled = false ∨
        (⟨false, 1, true⟩ : CacheConfig).cache_hours ≤ 0) ∧
      (CacheManager.get ⟨false, 1, true⟩
          (⟨[("k", 5)], [], []⟩ : CacheState Nat) 0 "k" =
        (none, ⟨[("k", 5)], [], []⟩) ∧
        CacheManager.set ⟨false, 1, true⟩
          (⟨[("k", 5)], [], []⟩ : CacheState Nat) 0 "k" 9 =
        (false, ⟨[("k", 5)], [], []⟩)) :=
  ⟨Or.inl rfl,
    cache_disabled_noop ⟨false, 1, true⟩ ⟨[("k", 5)], [], []⟩ 0 "k" 9
      (Or.inl rfl)⟩

/-! ## Circuit-breaker claim (C3) -/

/-- C3: the breaker implements the specified three-state transition
relation. (1) It starts CLOSED with a zero consecutive-failure count;
(2) in CLOSED an (expected) failure below the threshold increments the
count and stays CLOSED; (3) in CLOSED a success resets the count to
zero; (4) a failure that reaches `failureThreshold` moves it to OPEN and
records the failure time; (5) in OPEN, a call before `recoveryTimeout`
has elapsed since the last failure yields `CircuitBreakerOpenError`
without invoking the wrapped operation; (6) a call at or after the
timeout transitions to HALF_OPEN and itself invokes the operation — a
failed probe reopens the breaker with a fresh timestamp, a successful
probe counts towards `halfOpenMaxCalls`; (7) in HALF_OPEN a single
failure returns it to OPEN with a new failure timestamp; (8) in
HALF_OPEN each success resets the failure count and, once
`halfOpenMaxCalls` consecutive successes are seen, closes the breaker. -/
theorem circuit_breaker_transitions {ε α : Type} :
    (∀ cfg : CircuitBreakerConfig ε,
      (CircuitBreaker.init cfg).state = .closed ∧
        (CircuitBreaker.init cfg).failure_count = 0) ∧
    (∀ (cb : CircuitBreaker ε) (now : ℚ) (e : ε),
      cb.state = .closed → cb.config.isExpected e = true →
      cb.failure_count + 1 < cb.config.failure_threshold →
      (cb.call now (.error e : Except ε α)).1.failure_count =
          cb.failure_count + 1 ∧
        (cb.call now (.error e : Except ε α)).1.state = .closed ∧
        (cb.call now (.error e : Except ε α)).2.2 = true) ∧
    (∀ (cb : CircuitBreaker ε) (now : ℚ) (v : α),
      cb.state = .closed →
      (cb.call now (.ok v)).1.failure_count = 0 ∧
        (cb.call now (.ok v)).1.state = .closed ∧
        (cb.call now (.ok v)).2.1 = .ok v) ∧
    (∀ (cb : CircuitBreaker ε) (now : ℚ) (e : ε),
      cb.state = .closed → cb.config.isExpected e = true →
      cb.config.failure_threshold ≤ cb.failure_count + 1 →
      (cb.call now (.error e : Except ε α)).1.state = .open_ ∧
        (cb.call now (.error e : Except ε α)).1.last_failure_time = some now) ∧
    (∀ (cb : CircuitBreaker ε) (now t : ℚ) (res : Except ε α),
      cb.state = .open_ → cb.last_failure_time = some t →
      now - t < cb.config.recovery_timeout →
      (cb.call now res).2.1 = .error .circuitOpen ∧
        (cb.call now res).2.2 = false ∧
        (cb.call now res).1.state = .open_) ∧
    (∀ (cb : CircuitBreaker ε) (now t : ℚ) (res : Except ε α),
      cb.state = .open_ → cb.last_failure_time = some t →
      cb.config.recovery_timeout ≤ now - t →
      (cb.call now res).2.2 = true ∧
        (∀ e, res = .error e → cb.config.isExpected e = true →
          (cb.call now res).1.state = .open_ ∧
            (cb.call now res).1.last_failure_time = some now) ∧
        (∀ v, res = .ok v →
          (cb.call now res).2.1 = .ok v ∧
            (cb.call now res).1.failure_count = 0 ∧
            (if cb.config.half_open_max_calls ≤ 1 then
              (cb.call now res).1.state = .closed ∧
                (cb.call now res).1.half_open_calls = 0
             else
              (cb.call now res).1.state = .half_open ∧
                (cb.call now res).1.half_open_calls = 1))) ∧
    (∀ (cb : CircuitBreaker ε) (now : ℚ) (e : ε),
      cb.state = .half_open → cb.config.isExpected e = true →
      (cb.call now (.error e : Except ε α)).1.state = .open_ ∧
        (cb.call now (.error e : Except ε α)).1.last_failure_time =
          some now ∧
        (cb.call now (.error e : Except ε α)).2.2 = true) ∧
    (∀ (cb : CircuitBreaker ε) (now : ℚ) (v : α),
      cb.state = .half_open →
      (cb.call now (.ok v)).1.failure_count = 0 ∧
        (if cb.config.half_open_max_calls ≤ cb.half_open_calls + 1 then
          (cb.call now (.ok v)).1.state = .closed ∧
            (cb.call now (.ok v)).1.half_open_calls = 0
         else
          (cb.call now (.ok v)).1.state = .half_open ∧
            (cb.call now (.ok v)).1.half_open_calls =
              cb.half_open_calls + 1)) := by
  refine ⟨fun cfg => ⟨rfl, rfl⟩, ?_, ?_, ?_, ?_, ?_, ?_, ?_⟩
  · intro cb now e hs he hlt
    have hth : ¬ cb.config.failure_threshold ≤ cb.failure_count + 1 := by omega
    simp [CircuitBreaker.call, CircuitBreaker.on_failure, hs, he, hth]
  · intro cb now v hs
    simp [CircuitBreaker.call, CircuitBreaker.on_success, hs]
  · intro cb now e hs he hth
    simp [CircuitBreaker.call, CircuitBreaker.on_failure, hs, he, hth]
  · intro cb now t res hs hlast hlt
    have hlt' : ¬ cb.config.recovery_timeout ≤ now - t := not_le.mpr hlt
    simp [CircuitBreaker.call, CircuitBreaker.should_attempt_reset, hs,
      hlast, hlt']
  · intro cb now t res hs hlast hle
    refine ⟨?_, ?_, ?_⟩
    · cases res with
      | ok v =>
        simp [CircuitBreaker.call, CircuitBreaker.should_attempt_reset,
          hs, hlast, hle]
      | error e =>
        by_cases he : cb.config.isExpected e = true <;>
          simp [CircuitBreaker.call, CircuitBreaker.should_attempt_reset,
            hs, hlast, hle, he]
    · intro e hres he
      subst hres
      simp [CircuitBreaker.call, CircuitBreaker.should_attempt_reset,
        CircuitBreaker.on_failure, hs, hlast, hle, he]
    · intro v hres
      subst hres
      by_cases hmax : cb.config.half_open_max_calls ≤ 1 <;>
        simp [CircuitBreaker.call, CircuitBreaker.should_attempt_reset,
          CircuitBreaker.on_success, hs, hlast, hle, hmax]
  · intro cb now e hs he
    simp [CircuitBreaker.call, CircuitBreaker.on_failure, hs, he]
  · intro cb now v hs
    by_cases hmax : cb.config.half_open_max_calls ≤ cb.half_open_calls + 1 <;>
      simp [CircuitBreaker.call, CircuitBreaker.on_success, hs, hmax]

/-- C3 witness: each transition instantiated on a concrete breaker with
`failureThreshold = 2`, `recoveryTimeout = 10` and
`halfOpenMaxCalls = 2`. -/
theorem circuit_breaker_transitions_witness :
    (CircuitBreaker.init
      (⟨2, 10, fun _ => true, 2⟩ : CircuitBreakerConfig Nat)).state =
        .closed ∧
    ((⟨⟨2, 10, fun _ => true, 2⟩, .closed, 0, none, 0, 0, 0, 0, 0⟩ :
        CircuitBreaker Nat).call 0
        (.error 3 : Except Nat Nat)).1.failure_count = 1 ∧
    ((⟨⟨2, 10, fun _ => true, 2⟩, .closed, 0, none, 0, 0, 0, 0, 0⟩ :
        CircuitBreaker Nat).call 0
        (.ok (4 : Nat))).1.failure_count = 0 ∧
    ((⟨⟨2, 10, fun _ => true, 2⟩, .closed, 1, some 0, 0, 3, 1, 1, 0⟩ :
        CircuitBreaker Nat).call 5
        (.error 3 : Except Nat Nat)).1.state = .open_ ∧
    ((⟨⟨2, 10, fun _ => true, 2⟩, .closed, 1, some 0, 0, 3, 1, 1, 0⟩ :
        CircuitBreaker Nat).call 5
        (.error 3 : Except Nat Nat)).1.last_failure_time = some 5 ∧
    ((⟨⟨2, 10, fun _ => true, 2⟩, .open_, 2, some 0, 0, 4, 1, 2, 1⟩ :
        CircuitBreaker Nat).call 5 (.ok (4 : Nat))).2.1 =
      .error .circuitOpen ∧
    ((⟨⟨2, 10, fun _ => true, 2⟩, .open_, 2, some 0, 0, 4, 1, 2, 1⟩ :
        CircuitBreaker Nat).call 5 (.ok (4 : Nat))).2.2 = false ∧
    ((⟨⟨2, 10, fun _ => true, 2⟩, .open_, 2, some 0, 0, 4, 1, 2, 1⟩ :
        CircuitBreaker Nat).call 20 (.ok (4 : Nat))).2.2 = true ∧
    ((⟨⟨2, 10, fun _ => true, 2⟩, .open_, 2, some 0, 0, 4, 1, 2, 1⟩ :
        CircuitBreaker Nat).call 20 (.ok (4 : Nat))).1.state = .half_open ∧
    ((⟨⟨2, 10, fun _ => true, 2⟩, .open_, 2, some 0, 0, 4, 1, 2, 1⟩ :
        CircuitBreaker Nat).call 20 (.ok (4 : Nat))).1.half_open_calls = 1 ∧
    ((⟨⟨2, 10, fun _ => true, 2⟩, .half_open, 0, some 0, 0, 5, 1, 2, 1⟩ :
        CircuitBreaker Nat).call 30
        (.error 3 : Except Nat Nat)).1.state = .open_ ∧
    ((⟨⟨2, 10, fun _ => true, 2⟩, .half_open, 0, some 0, 0, 5, 1, 2, 1⟩ :
        CircuitBreaker Nat).call 30
        (.error 3 : Except Nat Nat)).1.last_failure_time = some 30 ∧
    ((⟨⟨2, 10, fun _ => true, 2⟩, .half_open, 0, some 0, 1, 5, 1, 2, 1⟩ :
        CircuitBreaker Nat).call 30 (.ok (4 : Nat))).1.failure_count = 0 ∧
    ((⟨⟨2, 10, fun _ => true, 2⟩, .half_open, 0, some 0, 1, 5, 1, 2, 1⟩ :
        CircuitBreaker Nat).call 30 (.ok (4 : Nat))).1.state = .closed := by
  have T := circuit_breaker_transitions (ε := Nat) (α := Nat)
  have h2 := T.2.1
    ⟨⟨2, 10, fun _ => true, 2⟩, .closed, 0, none, 0, 0, 0, 0, 0⟩ 0 3
    rfl rfl (by decide)
  have h3 := T.2.2.1
    ⟨⟨2, 10, fun _ => true, 2⟩, .closed, 0, none, 0, 0, 0, 0, 0⟩ 0 4 rfl
  have h4 := T.2.2.2.1
    ⟨⟨2, 10, fun _ => true, 2⟩, .closed, 1, some 0, 0, 3, 1, 1, 0⟩ 5 3
    rfl rfl (by decide)
  have h5 := T.2.2.2.2.1
    ⟨⟨2, 10, fun _ => true, 2⟩, .open_, 2, some 0, 0, 4, 1, 2, 1⟩ 5 0
    (.ok 4) rfl rfl (by norm_num)
  have h6 := T.2.2.2.2.2.1
    ⟨⟨2, 10, fun _ => true, 2⟩, .open_, 2, some 0, 0, 4, 1, 2, 1⟩ 20 0
    (.ok 4) rfl rfl (by norm_num)
  have h6s := h6.2.2 4 rfl
  have h6ite := h6s.2.2
  rw [if_neg (by decide)] at h6ite
  have h7 := T.2.2.2.2.2.2.1
    ⟨⟨2, 10, fun _ => true, 2⟩, .half_open, 0, some 0, 0, 5, 1, 2, 1⟩ 30 3
    rfl rfl
  have h8 := T.2.2.2.2.2.2.2
    ⟨⟨2, 10, fun _ => true, 2⟩, .half_open, 0, some 0, 1, 5, 1, 2, 1⟩ 30 4
    rfl
  have h8ite := h8.2
  rw [if_pos (by decide)] at h8ite
  exact ⟨(T.1 _).1, h2.1, h3.1, h4.1, h4.2, h5.1, h5.2.1, h6.1, h6ite.1,
    h6ite.2, h7.1, h7.2.1, h8.1, h8ite.1⟩

/-! ## Combined reliability wrapper claim (C8) -/

/-- C8: the combined wrapper is the retry executor applied to the
circuit-breaker-protected operation (breaker innermost, retry
outermost), each retry attempt being subject to the breaker state at the
time of that attempt; and an attempt made while the breaker is OPEN
within the recovery window fails fast with `CircuitBreakerOpenError`,
without invoking the raw operation and without sleeping a retry delay —
`CircuitBreakerOpenError` matches neither classification tuple of the
default retry configuration, so the retry loop surfaces it at once. -/
theorem with_retry_and_circuit_breaker_composition {ε α : Type} :
    (∀ (rcfg : RetryConfig (BreakerErr ε)) (ccfg : CircuitBreakerConfig ε)
        (op : Nat → Except ε α) (times rand : Nat → ℚ),
      with_retry_and_circuit_breaker rcfg ccfg op times rand =
        with_retryS rcfg (circuit_protected_step op times) rand
          (CircuitBreaker.init ccfg, 0)) ∧
    (∀ (rcfg : RetryConfig (BreakerErr ε)) (op : Nat → Except ε α)
        (times rand : Nat → ℚ) (cb : CircuitBreaker ε) (n : Nat) (t : ℚ),
      cb.state = .open_ → cb.last_failure_time = some t →
      times 0 - t < cb.config.recovery_timeout →
      rcfg.retryable .circuitOpen = false →
      1 ≤ rcfg.max_attempts →
      with_retryS rcfg (circuit_protected_step op times) rand (cb, n) =
        ⟨.err .circuitOpen, 1, [],
          ({ cb with total_calls := cb.total_calls + 1 }, n)⟩) := by
  constructor
  · intro rcfg ccfg op times rand
    rfl
  · intro rcfg op times rand cb n t hs hlast hlt hcls hmax
    have hlt' : ¬ cb.config.recovery_timeout ≤ times 0 - t := not_le.mpr hlt
    obtain ⟨f, hf⟩ : ∃ f, rcfg.max_attempts = f + 1 :=
      ⟨rcfg.max_attempts - 1, by omega⟩
    unfold with_retryS
    rw [hf]
    have hstep : circuit_protected_step op times (cb, n) 0 =
        (({ cb with total_calls := cb.total_calls + 1 }, n),
          .error .circuitOpen) := by
      simp [circuit_protected_step, CircuitBreaker.call,
        CircuitBreaker.should_attempt_reset, hs, hlast, hlt']
    by_cases hnr : rcfg.non_retryable .circuitOpen = true <;>
      simp [with_retry_go, hstep, hnr, hcls]

/-- C8 witness. -/
theorem with_retry_and_circuit_breaker_composition_witness :
    (with_retry_and_circuit_breaker (ε := Nat) (α := Nat)
        ⟨3, 1, 60, .fixed_interval, 0, fun _ => false, fun _ => false⟩
        ⟨2, 10, fun _ => true, 2⟩ (fun _ => .ok 4) (fun _ => 5) (fun _ => 0) =
      with_retryS ⟨3, 1, 60, .fixed_interval, 0, fun _ => false, fun _ => false⟩
        (circuit_protected_step (fun _ => .ok 4) (fun _ => 5)) (fun _ => 0)
        (CircuitBreaker.init ⟨2, 10, fun _ => true, 2⟩, 0)) ∧
    with_retryS (ε := BreakerErr Nat) (α := Nat)
        ⟨3, 1, 60, .fixed_interval, 0, fun _ => false, fun _ => false⟩
        (circuit_protected_step (fun _ => .ok 4) (fun _ => 5)) (fun _ => 0)
        (⟨⟨2, 10, fun _ => true, 2⟩, .open_, 2, some 0, 0, 4, 1, 2, 1⟩, 0) =
      ⟨.err .circuitOpen, 1, [],
        (⟨⟨2, 10, fun _ => true, 2⟩, .open_, 2, some 0, 0, 5, 1, 2, 1⟩, 0)⟩ :=
  ⟨(with_retry_and_circuit_breaker_composition (ε := Nat) (α := Nat)).1
      ⟨3, 1, 60, .fixed_interval, 0, fun _ => false, fun _ => false⟩
      ⟨2, 10, fun _ => true, 2⟩ (fun _ => .ok 4) (fun _ => 5) (fun _ => 0),
   (with_retry_and_circuit_breaker_composition (ε := Nat) (α := Nat)).2
      ⟨3, 1, 60, .fixed_interval, 0, fun _ => false, fun _ => false⟩
      (fun _ => .ok 4) (fun _ => 5) (fun _ => 0)
      ⟨⟨2, 10, fun _ => true, 2⟩, .open_, 2, some 0, 0, 4, 1, 2, 1⟩ 0 0
      rfl rfl (by norm_num) rfl (by decide)⟩

/-! ## Pipeline claim (C2) -/

/-- Running the stage list `pre ++ k :: post` from context `ctx`, where
every stage in `pre` succeeds and stage `k` raises `e`: the run stops at
`k` with the `pre` stages completed, their results stored, `k` failed
with one error record, and no later stage started. -/
theorem execute_pipeline_stages_fail {ε ρ : Type}
    (impl : PipelineStage → Except ε ρ) (e : ε) (v : PipelineStage → ρ)
    (k : PipelineStage) :
    ∀ (pre : List PipelineStage) (post : List PipelineStage)
      (ctx : PipelineExecutionContext ε ρ),
      (∀ s ∈ pre, impl s = .ok (v s)) → impl k = .error e →
      execute_pipeline_stages impl (pre ++ k :: post) ctx =
        ({ ctx with
            started := ctx.started ++ pre ++ [k],
            completed_stages := ctx.completed_stages ++ pre,
            stage_results := ctx.stage_results ++ pre.map (fun s => (s, v s)),
            failed_stages := ctx.failed_stages ++ [k],
            errors := ctx.errors ++ [(k, e)],
            current_stage := none }, .error (k, e)) := by
  intro pre
  induction pre with
  | nil =>
    intro post ctx _ hk
    simp [execute_pipeline_stages, execute_stage, hk,
      PipelineExecutionContext.start_stage,
      PipelineExecutionContext.fail_stage]
  | cons s pre ih =>
    intro post ctx hpre hk
    have hs : impl s = .ok (v s) := hpre s (by simp)
    have hrest : ∀ u ∈ pre, impl u = .ok (v u) := fun u hu =>
      hpre u (by simp [hu])
    have step := ih post
      ((ctx.start_stage s).complete_stage s (some (v s))) hrest hk
    simp only [List.cons_append, List.append_eq, execute_pipeline_stages,
      execute_stage, hs] at step ⊢
    rw [step]
    simp [PipelineExecutionContext.start_stage,
      PipelineExecutionContext.complete_stage]

/-- C2: in the six-stage pipeline (statistics and validation enabled),
when every stage before `k` completes and stage `k` raises, the final
execution context lists exactly the stages before `k` as completed (in
order) with their results intact in `stage_results`, exactly `[k]` as
failed, no stage after `k` ever started, the end time stamped exactly
once, exactly one error record naming `k`, and the caller receives a
single `PipelineError` naming `k` and wrapping the root cause. -/
theorem pipeline_stage_failure_aborts {ε ρ : Type}
    (impl : PipelineStage → Except ε ρ) (cfg : PipelineConfig)
    (pre post : List PipelineStage) (k : PipelineStage) (e : ε)
    (v : PipelineStage → ρ)
    (hstats : cfg.enable_statistics = true)
    (hval : cfg.enable_validation = true)
    (hseq : ([.discovery, .mapping, .transformation, .analysis,
        .validation, .output] : List PipelineStage) = pre ++ k :: post)
    (hpre : ∀ s ∈ pre, impl s = .ok (v s))
    (hk : impl k = .error e) :
    (ProcessingPipeline.process impl cfg).1.completed_stages = pre ∧
    (ProcessingPipeline.process impl cfg).1.failed_stages = [k] ∧
    (ProcessingPipeline.process impl cfg).1.started = pre ++ [k] ∧
    (ProcessingPipeline.process impl cfg).1.errors = [(k, e)] ∧
    (ProcessingPipeline.process impl cfg).1.stage_results =
      pre.map (fun s => (s, v s)) ∧
    (ProcessingPipeline.process impl cfg).1.finalize_count = 1 ∧
    (ProcessingPipeline.process impl cfg).2 = .error ⟨k, e⟩ := by
  have hstages : stage_sequence cfg = pre ++ k :: post := by
    rw [← hseq]
    simp [stage_sequence, hstats, hval]
  have hrun := execute_pipeline_stages_fail impl e v k pre post
    (PipelineExecutionContext.init ε ρ) hpre hk
  unfold ProcessingPipeline.process
  rw [hstages, hrun]
  simp [PipelineExecutionContext.init, PipelineExecutionContext.finalize]

/-- C2 witness: a six-stage run whose transformation stage fails. -/
theorem pipeline_stage_failure_aborts_witness :
    (ProcessingPipeline.process (ε := Nat) (ρ := Nat)
        (fun s => match s with
          | .transformation => .error 9
          | _ => .ok 1) ⟨true, true⟩).1.completed_stages =
      [.discovery, .mapping] ∧
    (ProcessingPipeline.process (ε := Nat) (ρ := Nat)
        (fun s => match s with
          | .transformation => .error 9
          | _ => .ok 1) ⟨true, true⟩).1.failed_stages = [.transformation] ∧
    (ProcessingPipeline.process (ε := Nat) (ρ := Nat)
        (fun s => match s with
          | .transformation => .error 9
          | _ => .ok 1) ⟨true, true⟩).1.started =
      [.discovery, .mapping] ++ [.transformation] ∧
    (ProcessingPipeline.process (ε := Nat) (ρ := Nat)
        (fun s => match s with
          | .transformation => .error 9
          | _ => .ok 1) ⟨true, true⟩).1.errors = [(.transformation, 9)] ∧
    (ProcessingPipeline.process (ε := Nat) (ρ := Nat)
        (fun s => match s with
          | .transformation => .error 9
          | _ => .ok 1) ⟨true, true⟩).1.stage_results =
      ([.discovery, .mapping] : List PipelineStage).map (fun s => (s, 1)) ∧
    (ProcessingPipeline.process (ε := Nat) (ρ := Nat)
        (fun s => match s with
          | .transformation => .error 9
          | _ => .ok 1) ⟨true, true⟩).1.finalize_count = 1 ∧
    (ProcessingPipeline.process (ε := Nat) (ρ := Nat)
        (fun s => match s with
          | .transformation => .error 9
          | _ => .ok 1) ⟨true, true⟩).2 = .error ⟨.transformation, 9⟩ :=
  pipeline_stage_failure_aborts
    (fun s => match s with
      | .transformation => .error 9
      | _ => .ok 1) ⟨true, true⟩ [.discovery, .mapping]
    [.analysis, .validation, .output] .transformation 9 (fun _ => 1)
    rfl rfl rfl (by intro s hs; fin_cases hs <;> rfl) rfl

end SSMFetcher
